import Mathlib

/-!
Shallow embedding of the smart-resume-screening frontend (a React/axios
single-page dashboard) for claim verification. Each definition is translated
from the repository source; JavaScript numbers that only take part in exact
comparisons and arithmetic are modelled as rationals, absent/undefined values
as Option, and asynchronous handlers as pure functions from their inputs and
the outcome of each network call to the list of observable effects (requests
issued, notifications shown, state updates) in program order.
-/

namespace SmartResume

/-- JavaScript s.includes(t): t occurs as a contiguous substring of s. -/
def strIncludes (s t : String) : Bool :=
  (List.range (s.toList.length + 1)).any (fun i => t.toList.isPrefixOf (s.toList.drop i))

/-- JavaScript s.toLowerCase(), character by character. ASCII case folding
models String.prototype.toLowerCase, which agrees with it on every string
these components compare. -/
def strLower (s : String) : String :=
  String.mk (s.toList.map Char.toLower)

/-- JavaScript-style suffix test on strings. -/
def strEndsWith (s t : String) : Bool :=
  t.toList.isSuffixOf s.toList

/-- JavaScript (d || m) for a possibly absent string d: the fallback m is used
when d is undefined or the empty string (both falsy). -/
def jsOrString (d : Option String) (m : String) : String :=
  match d with
  | none => m
  | some s => if s = "" then m else s

/-- JavaScript Math.round on an exact rational: half-way cases round up. -/
def jsRound (x : ℚ) : ℤ :=
  Int.floor (x + 1 / 2)

/-- The kind of a transient notification shown by showNotification. -/
inductive NotifKind where
  | success
  | error
  deriving DecidableEq

/-- A transient user-facing notification (App.js showNotification). -/
structure Notif where
  message : String
  kind : NotifKind
  deriving DecidableEq

/-- A file as handed to the upload handlers: its name and size in bytes. -/
structure JsFile where
  name : String
  size : Nat
  deriving DecidableEq

/-- The outcome of one axios.post of a file: resolved, or rejected with an
error whose response may carry a structured detail string plus the transport
message. -/
inductive UploadOutcome where
  | success
  | failure (detail : Option String) (message : String)
  deriving DecidableEq

/-- An observable effect of an upload handler, in program order. -/
inductive UploadEvent where
  | notify (n : Notif)
  | request (filename : String)
  | setProgress (filename : String) (percent : Nat)
  | removeProgress (filename : String)
  | scheduleRefresh (delayMs : Nat)
  | refreshResumes
  deriving DecidableEq

/-- Whether an upload event is a network request. -/
def UploadEvent.isRequest : UploadEvent → Bool
  | .request _ => true
  | _ => false

/-- ResumeManager.js line 32: file.name.toLowerCase().match(/\.(pdf|docx|txt)$/),
i.e. the lower-cased name ends in .pdf, .docx or .txt. -/
def hasValidExtension (name : String) : Bool :=
  let n := strLower name
  strEndsWith n ".pdf" || strEndsWith n ".docx" || strEndsWith n ".txt"

/-- ResumeManager.js line 38: the client-side size limit, 10 * 1024 * 1024 bytes. -/
def maxFileSize : Nat := 10 * 1024 * 1024

/-- One iteration of the for-loop of ResumeManager.js handleFileUpload
(lines 30-79): validate the extension, then the size, then post the file,
tracking progress and notifying on success or failure. The onUploadProgress
percentage callbacks between the initial setProgress and the response are
driven by the network layer and are not modelled. -/
def processFile (f : JsFile) (outcome : UploadOutcome) : List UploadEvent :=
  if hasValidExtension f.name = false then
    [UploadEvent.notify ⟨"Invalid file format: " ++ f.name ++ ". Please use PDF, DOCX, or TXT.", NotifKind.error⟩]
  else if f.size > maxFileSize then
    [UploadEvent.notify ⟨"File too large: " ++ f.name ++ ". Maximum size is 10MB.", NotifKind.error⟩]
  else
    match outcome with
    | UploadOutcome.success =>
        [UploadEvent.setProgress f.name 0,
         UploadEvent.request f.name,
         UploadEvent.notify ⟨"Resume \"" ++ f.name ++ "\" uploaded successfully!", NotifKind.success⟩,
         UploadEvent.removeProgress f.name]
    | UploadOutcome.failure d m =>
        [UploadEvent.setProgress f.name 0,
         UploadEvent.request f.name,
         UploadEvent.notify ⟨"Error uploading " ++ f.name ++ ": " ++ jsOrString d m, NotifKind.error⟩,
         UploadEvent.removeProgress f.name]

/-- The events of the whole for-loop over the batch, file by file. -/
def uploadBatchEvents (files : List (JsFile × UploadOutcome)) : List UploadEvent :=
  (files.map (fun p => processFile p.1 p.2)).flatten

/-- ResumeManager.js handleFileUpload (lines 25-85): an empty selection
returns at once; otherwise every file is processed in order and a delayed
list refresh (setTimeout, 2000 ms) is scheduled at the end. -/
def handleFileUpload (files : List (JsFile × UploadOutcome)) : List UploadEvent :=
  if files.isEmpty then []
  else uploadBatchEvents files ++ [UploadEvent.scheduleRefresh 2000]

/-- The effect of one upload event on the uploadProgress map, modelled as the
list of filenames currently present as keys. -/
def applyProgressEvent (progress : List String) : UploadEvent → List String
  | UploadEvent.setProgress n _ => if n ∈ progress then progress else progress ++ [n]
  | UploadEvent.removeProgress n => progress.filter (fun m => m ≠ n)
  | _ => progress

/-- The uploadProgress keys after a list of events, starting from progress. -/
def runProgress (progress : List String) (events : List UploadEvent) : List String :=
  events.foldl applyProgressEvent progress

/-- App.js handleFileUpload (lines 51-73), the upload variant of the dashboard
shell: the whole for-loop of posts sits inside a single try block with no
per-file validation; the first rejected post raises, producing one error
notification and abandoning the rest of the batch, while a fully successful
loop notifies once and reloads the resume list. -/
def appUploadRun : List (JsFile × UploadOutcome) → List UploadEvent
  | [] => [UploadEvent.notify ⟨"Files uploaded successfully!", NotifKind.success⟩,
           UploadEvent.refreshResumes]
  | (f, UploadOutcome.success) :: rest => UploadEvent.request f.name :: appUploadRun rest
  | (f, UploadOutcome.failure _ m) :: _ =>
      [UploadEvent.request f.name,
       UploadEvent.notify ⟨"Upload failed: " ++ m, NotifKind.error⟩]

/-- App.js handleFileUpload entry point: an empty file list returns at once. -/
def appHandleFileUpload (files : List (JsFile × UploadOutcome)) : List UploadEvent :=
  if files.isEmpty then [] else appUploadRun files

/-- An axios rejection as the catch blocks read it: error.response?.data?.detail
(absent for pure transport failures) and error.message. -/
structure AxiosError where
  detail : Option String
  message : String
  deriving DecidableEq

/-- What a catch block does with a failed backend interaction: show a
transient notification, only log to the console, or neither (the failure
would escape the call site and be fatal - no handler in the source does so,
which the constructor exists to state). -/
inductive FailureBehavior where
  | notify (n : Notif)
  | consoleOnly (message : String)
  | fatal
  deriving DecidableEq

/-- Whether a failure behavior surfaces a user-facing notification. -/
def FailureBehavior.notifies : FailureBehavior → Bool
  | .notify _ => true
  | _ => false

/-- Whether a failure behavior lets the error escape the call site. -/
def FailureBehavior.isFatal : FailureBehavior → Bool
  | .fatal => true
  | _ => false

/-- App.js loadJobs catch (lines 37-39): console.error only, no notification. -/
def appLoadJobsOnError (e : AxiosError) : FailureBehavior :=
  FailureBehavior.consoleOnly ("Failed to load jobs: " ++ e.message)

/-- App.js loadResumes catch (lines 46-48): console.error only. -/
def appLoadResumesOnError (e : AxiosError) : FailureBehavior :=
  FailureBehavior.consoleOnly ("Failed to load resumes: " ++ e.message)

/-- App.js checkSystemHealth catch (lines 27-30): console.error only (the
health state is set to unhealthy, no notification is shown). -/
def appCheckSystemHealthOnError (e : AxiosError) : FailureBehavior :=
  FailureBehavior.consoleOnly ("Health check failed: " ++ e.message)

/-- JobManager.js loadJobs catch (lines 110-111): an error notification with
the transport message. -/
def jobManagerLoadJobsOnError (e : AxiosError) : FailureBehavior :=
  FailureBehavior.notify ⟨"Error loading jobs: " ++ e.message, NotifKind.error⟩

/-- JobManager.js handleSubmit catch (lines 138-139): an error notification
with the transport message. -/
def jobManagerSubmitOnError (e : AxiosError) : FailureBehavior :=
  FailureBehavior.notify ⟨"Error creating job: " ++ e.message, NotifKind.error⟩

/-- ResumeManager.js loadResumes catch (lines 18-19): an error notification
with the transport message. -/
def resumeLoadResumesOnError (e : AxiosError) : FailureBehavior :=
  FailureBehavior.notify ⟨"Error loading resumes: " ++ e.message, NotifKind.error⟩

/-- ResumeManager.js handleFileUpload catch (lines 68-70): an error
notification carrying the backend detail when present and truthy, otherwise
the transport message. -/
def resumeUploadOnError (filename : String) (e : AxiosError) : FailureBehavior :=
  FailureBehavior.notify
    ⟨"Error uploading " ++ filename ++ ": " ++ jsOrString e.detail e.message, NotifKind.error⟩

/-- MatchingDashboard.js loadJobs catch (lines 309-310): an error
notification with the transport message. -/
def matchingLoadJobsOnError (e : AxiosError) : FailureBehavior :=
  FailureBehavior.notify ⟨"Error loading jobs: " ++ e.message, NotifKind.error⟩

/-- MatchingDashboard.js findMatches catch (lines 333-335): an error
notification carrying the backend detail when present and truthy, otherwise
the transport message. -/
def matchingFindMatchesOnError (e : AxiosError) : FailureBehavior :=
  FailureBehavior.notify
    ⟨"Error finding matches: " ++ jsOrString e.detail e.message, NotifKind.error⟩

/-- The analytics overview object as the Analytics panel reads it. -/
structure AnalyticsOverview where
  total_jobs : ℚ
  total_resumes : ℚ
  total_matches : ℚ
  deriving DecidableEq

/-- The performance-metrics object as the Analytics panel reads it. -/
structure PerformanceMetrics where
  total_operations : ℚ
  successful_operations : ℚ
  deriving DecidableEq

/-- Analytics.js calculatePercentage (lines 51-54): a zero or absent total
short-circuits to 0 before any division. -/
def calculatePercentage (value : ℚ) (total : Option ℚ) : ℤ :=
  match total with
  | none => 0
  | some t => if t = 0 then 0 else jsRound (value / t * 100)

/-- Analytics.js match-rate display (lines 99-100): divide total_matches by
total_resumes only when both counts are positive, otherwise show 0. -/
def matchRate (o : AnalyticsOverview) : ℤ :=
  if 0 < o.total_matches ∧ 0 < o.total_resumes then
    jsRound (o.total_matches / o.total_resumes * 100)
  else 0

/-- The Analytics component state after loadAnalyticsData settles. -/
structure AnalyticsState where
  overview : Option AnalyticsOverview
  performanceMetrics : Option PerformanceMetrics
  notifiedLoadFailure : Bool
  deriving DecidableEq

/-- Analytics.js loadAnalyticsData (lines 12-37): the two aggregate calls run
in Promise.all, each with its own catch resolving to a null payload, so
neither rejection reaches the outer catch; the single failure notification
fires only when both payloads are null. -/
def loadAnalyticsData (overviewRes : Option AnalyticsOverview)
    (performanceRes : Option PerformanceMetrics) : AnalyticsState :=
  { overview := overviewRes
    performanceMetrics := performanceRes
    notifiedLoadFailure := overviewRes.isNone && performanceRes.isNone }

/-- Analytics.js line 179: the overview half renders its placeholder exactly
when the overview state is null. -/
def overviewPlaceholderShown (st : AnalyticsState) : Bool :=
  st.overview.isNone

/-- Analytics.js line 240: the performance half renders its placeholder
exactly when the performance-metrics state is null. -/
def performancePlaceholderShown (st : AnalyticsState) : Bool :=
  st.performanceMetrics.isNone

/-- A job as the matching panel reads it. -/
structure Job where
  job_id : Nat
  title : String
  company : String
  embedding_status : String
  deriving DecidableEq

/-- MatchingDashboard.js loadJobs, first variant (lines 21-28): the response
is filtered to jobs whose embedding_status is completed. -/
def loadJobsCompletedOnly (data : List Job) : List Job :=
  data.filter (fun job => job.embedding_status == "completed")

/-- MatchingDashboard.js loadJobs, second variant (lines 305-312): the
response is stored as is (response.data || []), with no embedding filter. -/
def loadJobsAll (data : Option (List Job)) : List Job :=
  data.getD []

/-- MatchingDashboard.js lines 366-369: the case-insensitive search over job
title and company. -/
def jobMatchesSearch (searchQuery : String) (job : Job) : Bool :=
  strIncludes (strLower job.title) (strLower searchQuery) ||
  strIncludes (strLower job.company) (strLower searchQuery)

/-- The search-filtered job list rendered in the jobs panel. -/
def filteredJobs (jobs : List Job) (searchQuery : String) : List Job :=
  jobs.filter (jobMatchesSearch searchQuery)

/-- MatchingDashboard.js lines 436-439 (second variant): the no-jobs
placeholder renders exactly when the search-filtered list is empty. -/
def noJobsPlaceholderShown (jobs : List Job) (searchQuery : String) : Bool :=
  (filteredJobs jobs searchQuery).isEmpty

/-- MatchingDashboard.js getScoreColor (lines 360-364). -/
def getScoreColor (score : ℚ) : String :=
  if score ≥ 80 then "#28a745"
  else if score ≥ 60 then "#ffc107"
  else "#dc3545"

/-- MatchingDashboard.js line 188 (first variant): the same three-way
threshold mapping written inline in the overall-score style attribute. -/
def overallScoreInlineColor (score : ℚ) : String :=
  if score ≥ 80 then "#28a745"
  else if score ≥ 60 then "#ffc107"
  else "#dc3545"

/-- The JobManager form state: every field a controlled input. -/
structure JobForm where
  title : String
  company : String
  description : String
  requirements : String
  required_skills : String
  experience_level : String
  location : String
  salary_range : String
  department : String
  job_type : String
  remote_allowed : Bool
  deriving DecidableEq

/-- JobManager.js lines 76-88 and the reset literal of lines 130-134: the
initial form values, restored after a successful creation. -/
def initialJobForm : JobForm :=
  { title := "", company := "", description := "", requirements := ""
    required_skills := "", experience_level := "mid", location := ""
    salary_range := "", department := "", job_type := "full_time"
    remote_allowed := false }

/-- JavaScript s.split(","): cut the character list at every comma, keeping
empty segments. -/
def splitCommaAux : List Char → List Char → List (List Char)
  | [], acc => [acc.reverse]
  | c :: rest, acc =>
      if c = ',' then acc.reverse :: splitCommaAux rest []
      else splitCommaAux rest (c :: acc)

/-- JavaScript s.split(",") on strings. -/
def splitComma (s : String) : List String :=
  (splitCommaAux s.toList []).map String.mk

/-- JavaScript s.trim(): strip leading and trailing whitespace. -/
def jsTrim (s : String) : String :=
  String.mk (((s.toList.dropWhile Char.isWhitespace).reverse.dropWhile Char.isWhitespace).reverse)

/-- JobManager.js lines 124-125: split on commas, trim each segment, drop the
falsy (empty) segments. -/
def splitCsv (s : String) : List String :=
  ((splitComma s).map jsTrim).filter (fun r => r ≠ "")

/-- The request body posted to /api/v2/jobs. -/
structure JobPayload where
  title : String
  company : String
  description : String
  requirements : List String
  required_skills : List String
  experience_level : String
  location : String
  salary_range : String
  department : String
  job_type : String
  remote_allowed : Bool
  deriving DecidableEq

/-- JobManager.js lines 122-126: the payload spreads the form and replaces
the two comma-separated text fields by their cleaned lists. -/
def buildJobData (form : JobForm) : JobPayload :=
  { title := form.title, company := form.company, description := form.description
    requirements := splitCsv form.requirements
    required_skills := splitCsv form.required_skills
    experience_level := form.experience_level, location := form.location
    salary_range := form.salary_range, department := form.department
    job_type := form.job_type, remote_allowed := form.remote_allowed }

/-- The observable result of one JobManager.js handleSubmit run. -/
structure SubmitResult where
  payload : JobPayload
  newForm : JobForm
  reloadedJobs : Bool
  notif : Notif
  deriving DecidableEq

/-- JobManager.js handleSubmit (lines 117-143): the payload is always built
and posted; on success the form resets to its initial values, the list
reloads and a success notification shows; on failure the form is untouched
and an error notification shows. -/
def handleSubmit (form : JobForm) (outcome : Option AxiosError) : SubmitResult :=
  match outcome with
  | none =>
      { payload := buildJobData form, newForm := initialJobForm, reloadedJobs := true
        notif := ⟨"Job created successfully and is being processed!", NotifKind.success⟩ }
  | some e =>
      { payload := buildJobData form, newForm := form, reloadedJobs := false
        notif := ⟨"Error creating job: " ++ e.message, NotifKind.error⟩ }

/-- ResumeManager.js getQualityColor (lines 116-121): a falsy score is grey,
then the 0.7 and 0.4 thresholds pick green, amber or red. -/
def getQualityColor (score : Option ℚ) : String :=
  match score with
  | none => "#6c757d"
  | some s =>
      if s = 0 then "#6c757d"
      else if s > 7 / 10 then "#28a745"
      else if s > 2 / 5 then "#ffc107"
      else "#dc3545"

/-- The quality-score bar of a resume card: fill width, fill color and the
rounded percentage label. -/
structure QualityBarView where
  widthPercent : ℚ
  color : String
  labelPercent : ℤ
  deriving DecidableEq

/-- ResumeManager.js lines 256-272: the bar is guarded by the plain JS
truthiness of resume.quality_score, so it renders only when the score is
present and nonzero. -/
def renderQualityBar (quality_score : Option ℚ) : Option QualityBarView :=
  match quality_score with
  | none => none
  | some s =>
      if s = 0 then none
      else some ⟨s * 100, getQualityColor (some s), jsRound (s * 100)⟩

/-- App.js lines 279-293: the resume card of the shell guards its bar with the
same truthiness check and colors it with a two-way 0.7 threshold. -/
def appRenderQualityBar (quality_score : Option ℚ) : Option QualityBarView :=
  match quality_score with
  | none => none
  | some s =>
      if s = 0 then none
      else some ⟨s * 100, if s > 7 / 10 then "#28a745" else "#ffc107", jsRound (s * 100)⟩

/-! ## Helper lemmas -/

/-- A string formed around t as a ++ t ++ b contains t as a substring. -/
theorem strIncludes_append_middle (a t b : String) :
    strIncludes (a ++ t ++ b) t = true := by
  have hdata : (a ++ t ++ b).toList = a.toList ++ (t.toList ++ b.toList) := by
    simp [String.toList, String.data_append]
  rw [strIncludes, List.any_eq_true]
  refine ⟨a.toList.length, ?_, ?_⟩
  · rw [List.mem_range, hdata]
    simp
    omega
  · rw [hdata, List.drop_left]
    exact List.isPrefixOf_iff_prefix.mpr (List.prefix_append _ _)

/-- The upload loop of a nonempty batch decomposes around any one file. -/
theorem handleFileUpload_append (pre post : List (JsFile × UploadOutcome))
    (f : JsFile) (o : UploadOutcome) :
    handleFileUpload (pre ++ (f, o) :: post) =
      uploadBatchEvents pre ++ processFile f o ++
        uploadBatchEvents post ++ [UploadEvent.scheduleRefresh 2000] := by
  rw [handleFileUpload, if_neg]
  · simp [uploadBatchEvents]
  · simp

/-- A file that passes both validations has its POST attempted, whatever the
outcome. -/
theorem request_mem_processFile (g : JsFile) (og : UploadOutcome)
    (hext : hasValidExtension g.name = true) (hsize : g.size ≤ maxFileSize) :
    UploadEvent.request g.name ∈ processFile g og := by
  cases og <;> simp [processFile, hext, Nat.not_lt.mpr hsize]

/-- A file that passes both validations leaves no uploadProgress entry behind,
whatever the outcome of its POST. -/
theorem progress_removed_processFile (g : JsFile) (og : UploadOutcome)
    (hext : hasValidExtension g.name = true) (hsize : g.size ≤ maxFileSize)
    (p : List String) :
    g.name ∉ runProgress p (processFile g og) := by
  cases og <;>
    simp [processFile, hext, Nat.not_lt.mpr hsize, runProgress, applyProgressEvent,
      List.mem_filter]

/-! ## Claims -/

/-- Claim C1: a file whose name does not end (case-insensitively) in .pdf,
.docx or .txt produces only an error notification naming that file - no
network request, no progress entry - and the rest of the batch is processed
exactly as it would be on its own. -/
theorem upload_invalid_extension_rejected (f : JsFile) (o : UploadOutcome)
    (h : hasValidExtension f.name = false) :
    processFile f o =
      [UploadEvent.notify ⟨"Invalid file format: " ++ f.name ++ ". Please use PDF, DOCX, or TXT.",
        NotifKind.error⟩] ∧
    (∀ e ∈ processFile f o, e.isRequest = false) ∧
    strIncludes ("Invalid file format: " ++ f.name ++ ". Please use PDF, DOCX, or TXT.") f.name
      = true ∧
    (∀ pre post, handleFileUpload (pre ++ (f, o) :: post) =
      uploadBatchEvents pre ++ processFile f o ++
        uploadBatchEvents post ++ [UploadEvent.scheduleRefresh 2000]) := by
  have htrace : processFile f o =
      [UploadEvent.notify ⟨"Invalid file format: " ++ f.name ++ ". Please use PDF, DOCX, or TXT.",
        NotifKind.error⟩] := by
    simp [processFile, h]
  refine ⟨htrace, ?_, strIncludes_append_middle _ _ _, ?_⟩
  · intro e he
    rw [htrace] at he
    simp at he
    subst he
    rfl
  · intro pre post
    exact handleFileUpload_append pre post f o

/-- Claim C1 witness: a .exe file of 1000 bytes is rejected with the
format notification and nothing else. -/
theorem upload_invalid_extension_rejected_witness :
    processFile ⟨"malware.exe", 1000⟩ UploadOutcome.success =
      [UploadEvent.notify ⟨"Invalid file format: malware.exe. Please use PDF, DOCX, or TXT.",
        NotifKind.error⟩] :=
  (upload_invalid_extension_rejected ⟨"malware.exe", 1000⟩ UploadOutcome.success (by decide)).1

/-- Claim C2 counterexample: a 11 MB file named big.exe exceeds the 10 MB
limit, yet the handler produces only the format notification - not the
size-specific one the claim promises for every oversized file - because the
extension check runs first. -/
theorem oversized_exe_gets_format_message :
    11 * 1024 * 1024 > 10 * 1024 * 1024 ∧
    processFile ⟨"big.exe", 11 * 1024 * 1024⟩ UploadOutcome.success =
      [UploadEvent.notify ⟨"Invalid file format: big.exe. Please use PDF, DOCX, or TXT.",
        NotifKind.error⟩] := by
  exact ⟨by decide, by decide⟩

/-- Claim C2 (amended to files that pass the extension check, which runs
first): such a file larger than 10 * 1024 * 1024 bytes is rejected before
any network request with a size-specific notification naming it, while a
file of exactly 10 * 1024 * 1024 bytes passes the size check and has its
upload attempted. -/
theorem upload_oversize_rejected (f : JsFile) (o : UploadOutcome)
    (hext : hasValidExtension f.name = true) (hsize : f.size > maxFileSize) :
    processFile f o =
      [UploadEvent.notify ⟨"File too large: " ++ f.name ++ ". Maximum size is 10MB.",
        NotifKind.error⟩] ∧
    (∀ e ∈ processFile f o, e.isRequest = false) ∧
    strIncludes ("File too large: " ++ f.name ++ ". Maximum size is 10MB.") f.name = true ∧
    (∀ g : JsFile, ∀ o' : UploadOutcome, hasValidExtension g.name = true →
      g.size = maxFileSize → UploadEvent.request g.name ∈ processFile g o') := by
  have htrace : processFile f o =
      [UploadEvent.notify ⟨"File too large: " ++ f.name ++ ". Maximum size is 10MB.",
        NotifKind.error⟩] := by
    simp [processFile, hext, hsize]
  refine ⟨htrace, ?_, strIncludes_append_middle _ _ _, ?_⟩
  · intro e he
    rw [htrace] at he
    simp at he
    subst he
    rfl
  · intro g o' hg hgsize
    exact request_mem_processFile g o' hg (Nat.le_of_eq hgsize)

/-- Claim C2 witness: a valid-extension file one byte over the limit gets
exactly the size notification, and one of exactly 10 MB is attempted. -/
theorem upload_oversize_rejected_witness :
    processFile ⟨"big.pdf", 10 * 1024 * 1024 + 1⟩ UploadOutcome.success =
      [UploadEvent.notify ⟨"File too large: big.pdf. Maximum size is 10MB.",
        NotifKind.error⟩] ∧
    UploadEvent.request "exact.pdf" ∈ processFile ⟨"exact.pdf", 10 * 1024 * 1024⟩
      UploadOutcome.success :=
  ⟨(upload_oversize_rejected ⟨"big.pdf", 10 * 1024 * 1024 + 1⟩ UploadOutcome.success
      (by decide) (by decide)).1,
   (upload_oversize_rejected ⟨"big.pdf", 10 * 1024 * 1024 + 1⟩ UploadOutcome.success
      (by decide) (by decide)).2.2.2 ⟨"exact.pdf", 10 * 1024 * 1024⟩ UploadOutcome.success
      (by decide) rfl⟩

/-- Claim C3 counterexample: in App.js handleFileUpload the for-loop of posts
sits inside one try block, so when the first of two files fails, the second
is never requested - the batch is aborted, contradicting the claimed
isolation for that cited handler. -/
theorem app_upload_batch_aborts_on_failure :
    appHandleFileUpload
        [(⟨"a.pdf", 100⟩, UploadOutcome.failure none "Network Error"),
         (⟨"b.pdf", 200⟩, UploadOutcome.success)] =
      [UploadEvent.request "a.pdf",
       UploadEvent.notify ⟨"Upload failed: Network Error", NotifKind.error⟩] ∧
    UploadEvent.request "b.pdf" ∉ appHandleFileUpload
        [(⟨"a.pdf", 100⟩, UploadOutcome.failure none "Network Error"),
         (⟨"b.pdf", 200⟩, UploadOutcome.success)] := by
  exact ⟨by decide, by decide⟩

/-- Claim C3 (amended to ResumeManager.js handleFileUpload, the handler that
owns the upload-progress map): a failed upload at any position leaves every
later file processed exactly as on its own, every validated later file still
has its POST attempted, and a validated file never leaves its progress entry
behind whatever its outcome; App.js handleFileUpload, by contrast, aborts
the batch at the first failure (see the counterexample). -/
theorem resume_upload_failure_isolated (pre post : List (JsFile × UploadOutcome))
    (f : JsFile) (d : Option String) (m : String) :
    handleFileUpload (pre ++ (f, UploadOutcome.failure d m) :: post) =
      uploadBatchEvents pre ++ processFile f (UploadOutcome.failure d m) ++
        uploadBatchEvents post ++ [UploadEvent.scheduleRefresh 2000] ∧
    (∀ g : JsFile, ∀ og : UploadOutcome, (g, og) ∈ post →
      hasValidExtension g.name = true → g.size ≤ maxFileSize →
      UploadEvent.request g.name ∈
        handleFileUpload (pre ++ (f, UploadOutcome.failure d m) :: post)) ∧
    (∀ g : JsFile, ∀ og : UploadOutcome, ∀ p : List String,
      hasValidExtension g.name = true → g.size ≤ maxFileSize →
      g.name ∉ runProgress p (processFile g og)) := by
  refine ⟨handleFileUpload_append pre post f (UploadOutcome.failure d m), ?_, ?_⟩
  · intro g og hmem hext hsize
    rw [handleFileUpload_append pre post f (UploadOutcome.failure d m)]
    have : UploadEvent.request g.name ∈ uploadBatchEvents post := by
      rw [uploadBatchEvents, List.mem_flatten]
      exact ⟨processFile g og, List.mem_map_of_mem _ hmem, request_mem_processFile g og hext hsize⟩
    simp [this]
  · intro g og p hext hsize
    exact progress_removed_processFile g og hext hsize p

/-- Claim C4 counterexample: a network error in App.js loadJobs is caught
but only logged to the console - no user-facing notification carries the
backend detail or the transport text, contrary to the claim that every
backend failure is converted into one. -/
theorem app_load_jobs_failure_silent :
    appLoadJobsOnError ⟨none, "Network Error"⟩ =
      FailureBehavior.consoleOnly "Failed to load jobs: Network Error" ∧
    (appLoadJobsOnError ⟨none, "Network Error"⟩).notifies = false := by
  exact ⟨rfl, rfl⟩

/-- Claim C4 (amended): every backend-interaction failure is caught at its
call site and none is fatal, and the component call sites (JobManager load
and submit, ResumeManager load and upload, MatchingDashboard load and
match) convert it into a transient notification carrying the structured
backend detail where that is read (upload and match) or the transport
message; but loadJobs, loadResumes and the health check of the App.js shell only
log to the console and show no notification. -/
theorem backend_failure_handling (e : AxiosError) (filename : String) :
    jobManagerLoadJobsOnError e =
      FailureBehavior.notify ⟨"Error loading jobs: " ++ e.message, NotifKind.error⟩ ∧
    jobManagerSubmitOnError e =
      FailureBehavior.notify ⟨"Error creating job: " ++ e.message, NotifKind.error⟩ ∧
    resumeLoadResumesOnError e =
      FailureBehavior.notify ⟨"Error loading resumes: " ++ e.message, NotifKind.error⟩ ∧
    resumeUploadOnError filename e =
      FailureBehavior.notify
        ⟨"Error uploading " ++ filename ++ ": " ++ jsOrString e.detail e.message,
          NotifKind.error⟩ ∧
    matchingLoadJobsOnError e =
      FailureBehavior.notify ⟨"Error loading jobs: " ++ e.message, NotifKind.error⟩ ∧
    matchingFindMatchesOnError e =
      FailureBehavior.notify
        ⟨"Error finding matches: " ++ jsOrString e.detail e.message, NotifKind.error⟩ ∧
    (appLoadJobsOnError e).notifies = false ∧
    (appLoadResumesOnError e).notifies = false ∧
    (appCheckSystemHealthOnError e).notifies = false ∧
    (jobManagerLoadJobsOnError e).isFatal = false ∧
    (jobManagerSubmitOnError e).isFatal = false ∧
    (resumeLoadResumesOnError e).isFatal = false ∧
    (resumeUploadOnError filename e).isFatal = false ∧
    (matchingLoadJobsOnError e).isFatal = false ∧
    (matchingFindMatchesOnError e).isFatal = false ∧
    (appLoadJobsOnError e).isFatal = false ∧
    (appLoadResumesOnError e).isFatal = false ∧
    (appCheckSystemHealthOnError e).isFatal = false := by
  repeat' constructor

/-- Claim C5: the percentage helpers never divide when the denominator is
zero or absent - calculatePercentage yields 0 for a missing or zero total,
and the match rate yields 0 whenever total_resumes is 0. -/
theorem percentages_never_divide_by_zero (value : ℚ) (o : AnalyticsOverview)
    (h : o.total_resumes = 0) :
    calculatePercentage value none = 0 ∧
    calculatePercentage value (some 0) = 0 ∧
    matchRate o = 0 := by
  refine ⟨rfl, by simp [calculatePercentage], ?_⟩
  rw [matchRate, if_neg]
  rw [h]
  simp

/-- Claim C5 witness: the zero-total branches at concrete inputs. -/
theorem percentages_never_divide_by_zero_witness :
    calculatePercentage 5 none = 0 ∧
    calculatePercentage 5 (some 0) = 0 ∧
    matchRate ⟨3, 0, 7⟩ = 0 :=
  percentages_never_divide_by_zero 5 ⟨3, 0, 7⟩ rfl

/-- Claim C6: the overall-score color mapping is green at and above 80,
amber from 60 up to but excluding 80, red below 60; the inline mapping of
the other dashboard variant agrees with it, and the list [95, 72, 40] maps
to green, amber, red. -/
theorem score_color_thresholds (s : ℚ) :
    (s ≥ 80 → getScoreColor s = "#28a745") ∧
    (60 ≤ s → s < 80 → getScoreColor s = "#ffc107") ∧
    (s < 60 → getScoreColor s = "#dc3545") ∧
    overallScoreInlineColor s = getScoreColor s ∧
    [(95 : ℚ), 72, 40].map getScoreColor = ["#28a745", "#ffc107", "#dc3545"] := by
  refine ⟨?_, ?_, ?_, rfl, by decide⟩
  · intro h
    rw [getScoreColor, if_pos h]
  · intro h1 h2
    rw [getScoreColor, if_neg (by linarith), if_pos h1]
  · intro h
    rw [getScoreColor, if_neg (by linarith), if_neg (by linarith)]

/-- Claim C6 witness: the three scores of the claim hit the three colors. -/
theorem score_color_thresholds_witness :
    getScoreColor 95 = "#28a745" ∧
    getScoreColor 72 = "#ffc107" ∧
    getScoreColor 40 = "#dc3545" :=
  ⟨(score_color_thresholds 95).1 (by norm_num),
   (score_color_thresholds 72).2.1 (by norm_num) (by norm_num),
   (score_color_thresholds 40).2.2.1 (by norm_num)⟩

/-- Claim C7 counterexample: the matching-dashboard variant that renders the
no-jobs placeholder stores the response unfiltered, so a single job whose
embedding_status is pending appears in the job list and the placeholder is
not rendered - against the claim that the list holds only completed jobs
and that with zero completed jobs the placeholder shows. -/
theorem matching_job_list_not_filtered :
    loadJobsAll (some [⟨1, "Backend Engineer", "Acme", "pending"⟩]) =
      [⟨1, "Backend Engineer", "Acme", "pending"⟩] ∧
    (⟨1, "Backend Engineer", "Acme", "pending"⟩ : Job).embedding_status ≠ "completed" ∧
    noJobsPlaceholderShown (loadJobsAll (some [⟨1, "Backend Engineer", "Acme", "pending"⟩])) ""
      = false := by
  exact ⟨rfl, by decide, by decide⟩

/-- Claim C7 (amended per variant): the first loadJobs variant filters the
response to completed jobs, so its list holds only those and is empty when
none are completed (that variant renders no placeholder); the second
variant, the one with the no-jobs placeholder, stores the response
unfiltered and shows the placeholder exactly when the search-filtered list
is empty - in particular when the backend returns no jobs at all. -/
theorem matching_jobs_completed_filter (data : List Job) (q : String) :
    (∀ j ∈ loadJobsCompletedOnly data, j.embedding_status = "completed") ∧
    ((∀ j ∈ data, j.embedding_status ≠ "completed") → loadJobsCompletedOnly data = []) ∧
    loadJobsAll (some data) = data ∧
    loadJobsAll none = [] ∧
    (noJobsPlaceholderShown (loadJobsAll (some data)) q = true ↔ filteredJobs data q = []) ∧
    noJobsPlaceholderShown (loadJobsAll none) q = true := by
  refine ⟨?_, ?_, rfl, rfl, ?_, by simp [noJobsPlaceholderShown, loadJobsAll, filteredJobs]⟩
  · intro j hj
    rw [loadJobsCompletedOnly, List.mem_filter] at hj
    simpa using hj.2
  · intro h
    rw [loadJobsCompletedOnly]
    rw [List.filter_eq_nil_iff]
    intro j hj
    simpa using h j hj
  · simp [noJobsPlaceholderShown, loadJobsAll, List.isEmpty_iff]

/-- Claim C8: the posted job payload carries exactly the comma-split,
trimmed, nonempty segments of the requirements and required-skills text,
whatever the outcome, and a successful creation resets every form field to
its initial value and reloads the job list. -/
theorem job_submit_payload_and_reset (form : JobForm) (outcome : Option AxiosError) :
    (∀ r : String, r ∈ (handleSubmit form outcome).payload.requirements ↔
      (∃ seg ∈ splitComma form.requirements, jsTrim seg = r) ∧ r ≠ "") ∧
    (∀ sk : String, sk ∈ (handleSubmit form outcome).payload.required_skills ↔
      (∃ seg ∈ splitComma form.required_skills, jsTrim seg = sk) ∧ sk ≠ "") ∧
    (handleSubmit form none).newForm = initialJobForm ∧
    (handleSubmit form none).reloadedJobs = true := by
  refine ⟨?_, ?_, rfl, rfl⟩ <;>
  · intro r
    cases outcome <;>
      simp [handleSubmit, buildJobData, splitCsv, List.mem_filter]

/-- Claim C9: the analytics loader keeps each half of the state independent
of the other call, each placeholder shows exactly when its own call failed,
and the failure notification fires exactly when both calls failed. -/
theorem analytics_partial_failure_tolerated (ov : Option AnalyticsOverview)
    (pm : Option PerformanceMetrics) :
    ((loadAnalyticsData ov pm).notifiedLoadFailure = true ↔ ov = none ∧ pm = none) ∧
    (overviewPlaceholderShown (loadAnalyticsData ov pm) = true ↔ ov = none) ∧
    (performancePlaceholderShown (loadAnalyticsData ov pm) = true ↔ pm = none) ∧
    (loadAnalyticsData ov pm).overview = ov ∧
    (loadAnalyticsData ov pm).performanceMetrics = pm := by
  cases ov <;> cases pm <;>
    simp [loadAnalyticsData, overviewPlaceholderShown, performancePlaceholderShown]

/-- Claim C10: both resume cards guard the quality-score bar with plain JS
truthiness, so a quality_score of exactly 0 renders no bar, the same as an
absent score, and the bar for a present score disappears exactly when that
score is 0. -/
theorem quality_bar_hidden_at_zero (q : ℚ) :
    renderQualityBar (some 0) = none ∧
    renderQualityBar none = none ∧
    appRenderQualityBar (some 0) = none ∧
    appRenderQualityBar none = none ∧
    (renderQualityBar (some q) = none ↔ q = 0) ∧
    (appRenderQualityBar (some q) = none ↔ q = 0) := by
  refine ⟨by simp [renderQualityBar], rfl, by simp [appRenderQualityBar], rfl, ?_, ?_⟩
  · by_cases h : q = 0 <;> simp [renderQualityBar, h]
  · by_cases h : q = 0 <;> simp [appRenderQualityBar, h]

end SmartResume
